import Mathlib

set_option autoImplicit false

namespace HtmlBox

mutual

/-- JSON-like structured values stored in the IndexedDB-backed store
(records are structured-clonable JS objects in src/app.js). -/
inductive JsVal where
  | vnull
  | vbool (b : Bool)
  | vnum (n : Int)
  | vstr (s : String)
  | varr (xs : JsArr)
  | vobj (fs : JsObj)
deriving DecidableEq

/-- A JS array of values. -/
inductive JsArr where
  | nil
  | cons (hd : JsVal) (tl : JsArr)
deriving DecidableEq

/-- The ordered fields of a JS object. -/
inductive JsObj where
  | nil
  | cons (name : String) (val : JsVal) (tl : JsObj)
deriving DecidableEq

end

/-- Membership test in a JS array. -/
def JsArr.hasVal : JsArr → JsVal → Bool
  | .nil, _ => false
  | .cons x rest, v => x = v || rest.hasVal v

/-- Field lookup on an object's field list (JS property access). -/
def JsObj.get : JsObj → String → Option JsVal
  | .nil, _ => none
  | .cons n x rest, name => if n = name then some x else rest.get name

/-- Set or add a field on an object's field list. -/
def JsObj.set : JsObj → String → JsVal → JsObj
  | .nil, name, v => .cons name v .nil
  | .cons n x rest, name, v =>
    if n = name then .cons n v rest else .cons n x (rest.set name v)

/-- Field lookup on a value: absent when the value is not an object. -/
def JsVal.field (v : JsVal) (name : String) : Option JsVal :=
  match v with
  | .vobj fs => fs.get name
  | _ => none

/-- Set or add a field on an object value; non-objects are returned unchanged
(models key injection by an IndexedDB key generator into the stored clone). -/
def JsVal.setField (v : JsVal) (name : String) (x : JsVal) : JsVal :=
  match v with
  | .vobj fs => .vobj (fs.set name x)
  | w => w

mutual

/-- Valid IndexedDB keys: numbers, strings, and arrays of valid keys
(dates and binary data do not occur in this program). -/
def isValidKey : JsVal → Bool
  | .vnum _ => true
  | .vstr _ => true
  | .varr xs => isValidKeyArr xs
  | _ => false

/-- All elements of an array are valid keys. -/
def isValidKeyArr : JsArr → Bool
  | .nil => true
  | .cons x rest => isValidKey x && isValidKeyArr rest

end

/-- Some element of an array is a valid key (such a record has at least one
entry in a multiEntry index). -/
def JsArr.anyValidKey : JsArr → Bool
  | .nil => false
  | .cons x rest => isValidKey x || rest.anyValidKey

/-- An object store's contents: records keyed by their primary key. -/
abbrev Table := List (JsVal × JsVal)

/-- Look up the record stored under a key. -/
def assocGet (t : Table) (k : JsVal) : Option JsVal :=
  match t with
  | [] => none
  | (k0, v0) :: rest => if k0 = k then some v0 else assocGet rest k

/-- Insert or fully replace the record at a key (IDBObjectStore.put semantics). -/
def assocPut (t : Table) (k v : JsVal) : Table :=
  match t with
  | [] => [(k, v)]
  | (k0, v0) :: rest => if k0 = k then (k, v) :: rest else (k0, v0) :: assocPut rest k v

/-- Remove the record at a key if present (IDBObjectStore.delete semantics:
succeeds whether or not the key exists). -/
def assocDelete (t : Table) (k : JsVal) : Table :=
  match t with
  | [] => []
  | (k0, v0) :: rest => if k0 = k then rest else (k0, v0) :: assocDelete rest k

/-- The fixed list of object stores (STORES in src/app.js line 4). -/
def STORES : List String :=
  ["meta", "users", "profiles", "chats", "messages", "posts", "comments", "likes", "logs"]

/-- Primary key path per store, from the onupgradeneeded switch in
src/app.js lines 33-85: meta uses keyPath key, every other store uses id. -/
def keyPathOf (store : String) : String :=
  if store = "meta" then "key" else "id"

/-- Whether a store has a key generator: only logs is autoIncrement
(src/app.js line 76). -/
def autoInc (store : String) : Bool :=
  store = "logs"

/-- Secondary index declarations from the onupgradeneeded switch:
index name mapped to its key path and multiEntry flag. -/
def indexSpec (store ixName : String) : Option (String × Bool) :=
  match store with
  | "chats" => if ixName = "by_participant" then some ("participants", true) else none
  | "messages" =>
    if ixName = "by_chat" then some ("chatId", false)
    else if ixName = "by_time" then some ("time", false) else none
  | "posts" =>
    if ixName = "by_author" then some ("authorProfileId", false)
    else if ixName = "by_type" then some ("type", false) else none
  | "comments" => if ixName = "by_post" then some ("postId", false) else none
  | "likes" =>
    if ixName = "by_post" then some ("postId", false)
    else if ixName = "by_profile" then some ("profileId", false) else none
  | "logs" => if ixName = "by_time" then some ("time", false) else none
  | _ => none

/-- Key-generator bump: storing an explicit numeric key m in an autoIncrement
store advances the generator past m. -/
def bumpNext (ai : Bool) (n : Int) (k : JsVal) : Int :=
  if ai then
    match k with
    | .vnum m => max n (m + 1)
    | _ => n
  else n

/-- IDBObjectStore.put against a store with key path kp, autoIncrement flag ai
and generator state nextId: extracts the in-line key, or generates one when
absent and ai holds (injecting it into the stored clone); rejects with
DataError otherwise. Returns the new table, generator state and stored record. -/
def tablePut (kp : String) (ai : Bool) (nextId : Int) (t : Table) (v : JsVal) :
    Except String (Table × Int × JsVal) :=
  match v.field kp with
  | some k =>
    if isValidKey k then .ok (assocPut t k v, bumpNext ai nextId k, v)
    else .error "DataError"
  | none =>
    if ai then
      let k := JsVal.vnum nextId
      let stored := v.setField kp k
      .ok (assocPut t k stored, nextId + 1, stored)
    else .error "DataError"

/-- IDBObjectStore.add: like put, but fails with ConstraintError when the key
already exists. -/
def tableAdd (kp : String) (ai : Bool) (nextId : Int) (t : Table) (v : JsVal) :
    Except String (Table × Int × JsVal) :=
  match v.field kp with
  | some k =>
    if isValidKey k then
      if (assocGet t k).isSome then .error "ConstraintError"
      else .ok (assocPut t k v, bumpNext ai nextId k, v)
    else .error "DataError"
  | none =>
    if ai then
      let k := JsVal.vnum nextId
      let stored := v.setField kp k
      .ok (assocPut t k stored, nextId + 1, stored)
    else .error "DataError"

/-- Issue a sequence of put requests against one store inside one transaction
(the Promise.all over values in bulkPut and seed). -/
def tablePutMany (kp : String) (ai : Bool) (nextId : Int) (t : Table) :
    List JsVal → Except String (Table × Int)
  | [] => .ok (t, nextId)
  | v :: rest =>
    match tablePut kp ai nextId t v with
    | .error e => .error e
    | .ok (t1, n1, _) => tablePutMany kp ai n1 t1 rest

/-- Whether a record is returned by an index getAll: the record's indexed field
must exist and equal the query (for a multiEntry index over an array field,
contain the query); with no query, every indexed record matches. -/
def indexMatches (f : String) (multi : Bool) (r : JsVal) (q : Option JsVal) : Bool :=
  match r.field f with
  | none => false
  | some v =>
    match q with
    | some qq =>
      if multi then
        match v with
        | .varr xs => xs.hasVal qq
        | _ => v = qq
      else v = qq
    | none =>
      if multi then
        match v with
        | .varr xs => xs.anyValidKey
        | _ => isValidKey v
      else isValidKey v

/-- The database: one table per object store, plus the logs key-generator
state (an IndexedDB key generator is per-store; only logs has one, and it is
not reset by clear). -/
structure DB where
  meta : Table
  users : Table
  profiles : Table
  chats : Table
  messages : Table
  posts : Table
  comments : Table
  likes : Table
  logs : Table
  nextLogId : Int
deriving DecidableEq

/-- The table backing a store name (empty for unknown names; callers guard
with STORES membership, as db.transaction throws for unknown names). -/
def DB.store (db : DB) (s : String) : Table :=
  if s = "meta" then db.meta
  else if s = "users" then db.users
  else if s = "profiles" then db.profiles
  else if s = "chats" then db.chats
  else if s = "messages" then db.messages
  else if s = "posts" then db.posts
  else if s = "comments" then db.comments
  else if s = "likes" then db.likes
  else if s = "logs" then db.logs
  else []

/-- Replace the table backing a store name. -/
def DB.setStore (db : DB) (s : String) (t : Table) : DB :=
  if s = "meta" then { db with meta := t }
  else if s = "users" then { db with users := t }
  else if s = "profiles" then { db with profiles := t }
  else if s = "chats" then { db with chats := t }
  else if s = "messages" then { db with messages := t }
  else if s = "posts" then { db with posts := t }
  else if s = "comments" then { db with comments := t }
  else if s = "likes" then { db with likes := t }
  else if s = "logs" then { db with logs := t }
  else db

/-- A freshly created database: all stores empty, logs key generator at 1. -/
def emptyDB : DB :=
  ⟨[], [], [], [], [], [], [], [], [], 1⟩

/-- Observable events of an operation, in program order: a transaction
durably committing (listing the stores it spans), and a dispatched
notification (DataLayer.dispatch). -/
inductive Event where
  | commit (stores : List String)
  | dispatch (name : String)
deriving DecidableEq

/-- Fate of the transactions an operation opens: whether its main readwrite
transaction commits, and whether the separate logs transaction opened by
recordLog succeeds. -/
structure Outcome where
  txOk : Bool
  logTxOk : Bool
deriving DecidableEq

/-- Result of one DataLayer operation: the database afterwards, the settled
promise, and the ordered observable events. -/
structure OpRes (α : Type) where
  db : DB
  res : Except String α
  events : List Event

namespace DataLayer

/-- DataLayer.get (src/app.js lines 137-144): a readonly lookup resolving with
the record, or with an absent result when the key is missing. -/
def get (db : DB) (store : String) (k : JsVal) : Except String (Option JsVal) :=
  if STORES.contains store then
    if isValidKey k then .ok (assocGet (db.store store) k)
    else .error "DataError"
  else .error "NotFoundError"

/-- DataLayer.getAll (src/app.js lines 146-156): without an index every record
of the store; with an index, the records the index maps to the query value. -/
def getAll (db : DB) (store : String) (ixName : Option String) (query : Option JsVal) :
    Except String (List JsVal) :=
  if STORES.contains store then
    match ixName with
    | none => .ok ((db.store store).map Prod.snd)
    | some ix =>
      match indexSpec store ix with
      | none => .error "NotFoundError"
      | some (f, multi) =>
        match query with
        | some qq =>
          if isValidKey qq then
            .ok (((db.store store).map Prod.snd).filter
              (fun r => indexMatches f multi r (some qq)))
          else .error "DataError"
        | none =>
          .ok (((db.store store).map Prod.snd).filter
            (fun r => indexMatches f multi r none))
  else .error "NotFoundError"

/-- The audit record built by DataLayer.recordLog (src/app.js lines 236-240). -/
def logEntry (action : String) (payload : JsVal) (now : Int) : JsVal :=
  .vobj (.cons "action" (.vstr action) (.cons "payload" payload
    (.cons "time" (.vnum now) .nil)))

/-- DataLayer.recordLog (src/app.js lines 235-248): adds the audit entry to
logs in its own readwrite transaction, then dispatches the logs change
notification; a failed add rejects before any dispatch. -/
def recordLog (db : DB) (action : String) (payload : JsVal) (now : Int) (ok : Bool) :
    OpRes Unit :=
  if ok then
    match tableAdd "id" true db.nextLogId db.logs (logEntry action payload now) with
    | .ok (t, n, _) =>
      ⟨{ db with logs := t, nextLogId := n }, .ok (), [.dispatch "logs:change"]⟩
    | .error e => ⟨db, .error e, []⟩
  else ⟨db, .error "AbortError", []⟩

/-- The payload recorded by put (src/app.js line 170). -/
def putPayload (store : String) (value : JsVal) : JsVal :=
  .vobj (.cons "store" (.vstr store) (.cons "value" value .nil))

/-- DataLayer.put (src/app.js lines 158-173): one put request in one readwrite
transaction; after the transaction completes it records an audit entry,
dispatches the collection change notification and resolves with the value. -/
def put (db : DB) (store : String) (value : JsVal) (now : Int) (o : Outcome) :
    OpRes JsVal :=
  if STORES.contains store then
    match tablePut (keyPathOf store) (autoInc store) db.nextLogId (db.store store) value with
    | .error e => ⟨db, .error e, []⟩
    | .ok (t, n, _) =>
      if o.txOk then
        let db1 : DB := { db.setStore store t with nextLogId := n }
        let lg := recordLog db1 "put" (putPayload store value) now o.logTxOk
        match lg.res with
        | .error e => ⟨lg.db, .error e, Event.commit [store] :: lg.events⟩
        | .ok _ =>
          ⟨lg.db, .ok value,
            Event.commit [store] :: lg.events ++ [.dispatch (store ++ ":change")]⟩
      else ⟨db, .error "AbortError", []⟩
  else ⟨db, .error "NotFoundError", []⟩

/-- The payload recorded by bulkPut (src/app.js line 193). -/
def bulkPayload (store : String) (count : Nat) : JsVal :=
  .vobj (.cons "store" (.vstr store) (.cons "count" (.vnum count) .nil))

/-- DataLayer.bulkPut (src/app.js lines 175-196): many put requests in one
readwrite transaction; after it completes, one audit entry and one collection
change notification. -/
def bulkPut (db : DB) (store : String) (values : List JsVal) (now : Int) (o : Outcome) :
    OpRes (List JsVal) :=
  if STORES.contains store then
    match tablePutMany (keyPathOf store) (autoInc store) db.nextLogId
        (db.store store) values with
    | .error e => ⟨db, .error e, []⟩
    | .ok (t, n) =>
      if o.txOk then
        let db1 : DB := { db.setStore store t with nextLogId := n }
        let lg := recordLog db1 "bulkPut" (bulkPayload store values.length) now o.logTxOk
        match lg.res with
        | .error e => ⟨lg.db, .error e, Event.commit [store] :: lg.events⟩
        | .ok _ =>
          ⟨lg.db, .ok values,
            Event.commit [store] :: lg.events ++ [.dispatch (store ++ ":change")]⟩
      else ⟨db, .error "AbortError", []⟩
  else ⟨db, .error "NotFoundError", []⟩

/-- The payload recorded by delete (src/app.js line 210). -/
def deletePayload (store : String) (k : JsVal) : JsVal :=
  .vobj (.cons "store" (.vstr store) (.cons "key" k .nil))

/-- DataLayer.delete (src/app.js lines 198-212): one delete request (which
succeeds whether or not the key exists) in one readwrite transaction; after it
completes, one audit entry and one collection change notification. -/
def delete (db : DB) (store : String) (k : JsVal) (now : Int) (o : Outcome) :
    OpRes Unit :=
  if STORES.contains store then
    if isValidKey k then
      if o.txOk then
        let db1 := db.setStore store (assocDelete (db.store store) k)
        let lg := recordLog db1 "delete" (deletePayload store k) now o.logTxOk
        match lg.res with
        | .error e => ⟨lg.db, .error e, Event.commit [store] :: lg.events⟩
        | .ok _ =>
          ⟨lg.db, .ok (),
            Event.commit [store] :: lg.events ++ [.dispatch (store ++ ":change")]⟩
      else ⟨db, .error "AbortError", []⟩
    else ⟨db, .error "DataError", []⟩
  else ⟨db, .error "NotFoundError", []⟩

/-- The database after the clearAll transaction: every store emptied; the
logs key generator is per-store state that clear does not reset. -/
def clearedDB (db : DB) : DB :=
  { emptyDB with nextLogId := db.nextLogId }

/-- DataLayer.clearAll (src/app.js lines 214-233): clears every store in one
readwrite transaction spanning all of them; after it completes, one reset
audit entry and the db reset notification. -/
def clearAll (db : DB) (now : Int) (o : Outcome) : OpRes Unit :=
  if o.txOk then
    let lg := recordLog (clearedDB db) "reset"
      (.vobj (.cons "info" (.vstr "database cleared") .nil)) now o.logTxOk
    match lg.res with
    | .error e => ⟨lg.db, .error e, Event.commit STORES :: lg.events⟩
    | .ok _ => ⟨lg.db, .ok (), Event.commit STORES :: lg.events ++ [.dispatch "db:reset"]⟩
  else ⟨db, .error "AbortError", []⟩

/-- The fetched seed payload: collection names mapped to their records. -/
abbrev SeedData := List (String × List JsVal)

/-- The records the seed payload provides for a store (data of the store,
empty when absent, src/app.js line 110). -/
def seedItems (data : SeedData) (s : String) : List JsVal :=
  match data with
  | [] => []
  | (n, items) :: rest => if n = s then items else seedItems rest s

/-- The seed writes (src/app.js lines 106-122): for every store except meta,
put all provided records, all inside the one seed transaction. -/
def seedStores : DB → List String → SeedData → Except String DB
  | db, [], _ => .ok db
  | db, s :: rest, data =>
    if s = "meta" then seedStores db rest data
    else
      match tablePutMany (keyPathOf s) (autoInc s) db.nextLogId (db.store s)
          (seedItems data s) with
      | .error e => .error e
      | .ok (t, n) => seedStores { db.setStore s t with nextLogId := n } rest data

/-- The seeded marker written by seed (src/app.js line 123). -/
def seededMarker (now : Int) : JsVal :=
  .vobj (.cons "key" (.vstr "seeded") (.cons "value" (.vbool true)
    (.cons "time" (.vnum now) .nil)))

/-- DataLayer.seed (src/app.js lines 102-130): writes the seed records for
every store except meta plus the seeded marker in one transaction spanning all
stores; after it completes, one seed audit entry (recordLog dispatches the
logs change notification; seed itself dispatches nothing further). -/
def seed (db : DB) (data : SeedData) (now : Int) (o : Outcome) : OpRes Unit :=
  match seedStores db STORES data with
  | .error e => ⟨db, .error e, []⟩
  | .ok db1 =>
    match tablePut "key" false db1.nextLogId db1.meta (seededMarker now) with
    | .error e => ⟨db, .error e, []⟩
    | .ok (t, _, _) =>
      if o.txOk then
        let db2 : DB := { db1 with meta := t }
        let lg := recordLog db2 "seed"
          (.vobj (.cons "info" (.vstr "Seed database loaded") .nil)) now o.logTxOk
        match lg.res with
        | .error e => ⟨lg.db, .error e, Event.commit STORES :: lg.events⟩
        | .ok _ => ⟨lg.db, .ok (), Event.commit STORES :: lg.events⟩
      else ⟨db, .error "AbortError", []⟩

end DataLayer

/-- The DataLayer instance state: whether a connection handle exists
(this.db, src/app.js line 25) and the persistent database behind it. -/
structure Layer where
  connected : Bool
  db : DB
deriving DecidableEq

/-- Result of DataLayer.open: the layer afterwards, the settled promise, and
the observable events. -/
structure LayerRes where
  layer : Layer
  res : Except String Unit
  events : List Event

/-- DataLayer.open (src/app.js lines 29-100): returns at once when a
connection handle already exists; otherwise connects, reads the meta seeded
marker, and runs seed only when the marker is absent. -/
def DataLayer.openDB (ly : Layer) (data : DataLayer.SeedData) (now : Int) (o : Outcome) :
    LayerRes :=
  if ly.connected then ⟨ly, .ok (), []⟩
  else
    let ly1 : Layer := { ly with connected := true }
    match DataLayer.get ly1.db "meta" (.vstr "seeded") with
    | .error e => ⟨ly1, .error e, []⟩
    | .ok (some _) => ⟨ly1, .ok (), []⟩
    | .ok none =>
      let sr := DataLayer.seed ly1.db data now o
      ⟨{ ly1 with db := sr.db }, sr.res, sr.events⟩

/-- Whether an operation's promise rejected. -/
def OpRes.failed {α : Type} (r : OpRes α) : Bool :=
  match r.res with
  | .error _ => true
  | .ok _ => false

/-- The record list a getAll resolves with (empty when it rejects). -/
def DataLayer.getAllList (db : DB) (store : String) (ix : Option String)
    (q : Option JsVal) : List JsVal :=
  match DataLayer.getAll db store ix q with
  | .ok l => l
  | .error _ => []

/-- A sample chat record with two participants. -/
def cChat : JsVal :=
  .vobj (.cons "id" (.vstr "c1") (.cons "participants"
    (.varr (.cons (.vstr "p1") (.cons (.vstr "p2") .nil))) .nil))

/-- A sample message record in chat c1. -/
def mMsg : JsVal :=
  .vobj (.cons "id" (.vstr "m1") (.cons "chatId" (.vstr "c1")
    (.cons "time" (.vnum 100) (.cons "text" (.vstr "hi") .nil))))

/-- A sample user record. -/
def uRec : JsVal :=
  .vobj (.cons "id" (.vstr "u1") (.cons "name" (.vstr "Ann") .nil))

/-- A sample record under key k, first payload. -/
def recA : JsVal :=
  .vobj (.cons "id" (.vstr "k") (.cons "a" (.vnum 1) .nil))

/-- A sample record under key k, second payload. -/
def recB : JsVal :=
  .vobj (.cons "id" (.vstr "k") (.cons "a" (.vnum 2) .nil))

/-- A sample seed payload providing one user. -/
def seedD : DataLayer.SeedData :=
  [("users", [uRec])]

theorem assocGet_assocPut_self (t : Table) (k v : JsVal) :
    assocGet (assocPut t k v) k = some v := by
  induction t with
  | nil => simp [assocPut, assocGet]
  | cons p rest ih =>
    by_cases h : p.1 = k
    · simp [assocPut, assocGet, h]
    · simp [assocPut, assocGet, h, ih]

theorem assocGet_assocPut_ne (t : Table) (k v k' : JsVal) (h : k' ≠ k) :
    assocGet (assocPut t k v) k' = assocGet t k' := by
  have hk : ¬(k = k') := fun hk => h hk.symm
  induction t with
  | nil => simp [assocPut, assocGet, hk]
  | cons p rest ih =>
    rcases p with ⟨k0, v0⟩
    by_cases hp : k0 = k
    · subst hp
      simp [assocPut, assocGet, hk]
    · simp [assocPut, assocGet, hp, ih]

theorem length_assocPut_of_mem (t : Table) (k v : JsVal)
    (h : (assocGet t k).isSome = true) : (assocPut t k v).length = t.length := by
  induction t with
  | nil => simp [assocGet] at h
  | cons p rest ih =>
    by_cases hp : p.1 = k
    · simp [assocPut, hp]
    · simp [assocGet, hp] at h
      simp [assocPut, hp, ih h]

theorem length_assocPut_of_fresh (t : Table) (k v : JsVal)
    (h : assocGet t k = none) : (assocPut t k v).length = t.length + 1 := by
  induction t with
  | nil => simp [assocPut]
  | cons p rest ih =>
    by_cases hp : p.1 = k
    · simp [assocGet, hp] at h
    · simp [assocGet, hp] at h
      simp [assocPut, hp, ih h]

theorem assocDelete_of_fresh (t : Table) (k : JsVal)
    (h : assocGet t k = none) : assocDelete t k = t := by
  induction t with
  | nil => rfl
  | cons p rest ih =>
    by_cases hp : p.1 = k
    · simp [assocGet, hp] at h
    · simp [assocGet, hp] at h
      simp [assocDelete, hp, ih h]

theorem append_change_ne (s : String) (h : s ≠ "logs") :
    s ++ ":change" ≠ "logs:change" := by
  intro heq
  apply h
  have hd : (s ++ ":change").data = ("logs" ++ ":change").data := by
    rw [heq]; rfl
  rw [String.data_append, String.data_append] at hd
  exact String.ext (List.append_cancel_right hd)

theorem DB.setStore_nextLogId (db : DB) (s : String) (t : Table) :
    (db.setStore s t).nextLogId = db.nextLogId := by
  unfold DB.setStore
  split_ifs <;> rfl

theorem DB.setStore_logs (db : DB) (s : String) (t : Table) (h : s ≠ "logs") :
    (db.setStore s t).logs = db.logs := by
  unfold DB.setStore
  split_ifs <;> simp_all

theorem DB.setStore_meta (db : DB) (s : String) (t : Table) (h : s ≠ "meta") :
    (db.setStore s t).meta = db.meta := by
  unfold DB.setStore
  split_ifs <;> simp_all

theorem DB.store_withLogs (db : DB) (t : Table) (n : Int) (s : String)
    (hs : s ∈ STORES) (h : s ≠ "logs") :
    DB.store { db with logs := t, nextLogId := n } s = db.store s := by
  simp [STORES] at hs
  rcases hs with rfl | rfl | rfl | rfl | rfl | rfl | rfl | rfl | rfl <;>
    first
      | exact absurd rfl h
      | rfl

theorem DB.store_withNextLogId (db : DB) (n : Int) (s : String)
    (hs : s ∈ STORES) :
    DB.store { db with nextLogId := n } s = db.store s := by
  simp [STORES] at hs
  rcases hs with rfl | rfl | rfl | rfl | rfl | rfl | rfl | rfl | rfl <;> rfl

theorem DB.store_withMeta (db : DB) (t : Table) (s : String)
    (hs : s ∈ STORES) (h : s ≠ "meta") :
    DB.store { db with meta := t } s = db.store s := by
  simp [STORES] at hs
  rcases hs with rfl | rfl | rfl | rfl | rfl | rfl | rfl | rfl | rfl <;>
    first
      | exact absurd rfl h
      | rfl

theorem DB.store_setStore_self (db : DB) (s : String) (t : Table)
    (hs : s ∈ STORES) : (db.setStore s t).store s = t := by
  simp [STORES] at hs
  rcases hs with rfl | rfl | rfl | rfl | rfl | rfl | rfl | rfl | rfl <;> rfl

theorem DB.store_setStore_ne (db : DB) (s' s : String) (t : Table)
    (hs : s ∈ STORES) (hs' : s' ∈ STORES) (h : s ≠ s') :
    (db.setStore s' t).store s = db.store s := by
  simp [STORES] at hs hs'
  rcases hs with rfl | rfl | rfl | rfl | rfl | rfl | rfl | rfl | rfl <;>
    rcases hs' with rfl | rfl | rfl | rfl | rfl | rfl | rfl | rfl | rfl <;>
      first
        | exact absurd rfl h
        | rfl

theorem recordLog_ok (db : DB) (a : String) (p : JsVal) (now : Int) :
    DataLayer.recordLog db a p now true =
      ⟨{ db with
          logs := assocPut db.logs (.vnum db.nextLogId)
            ((DataLayer.logEntry a p now).setField "id" (.vnum db.nextLogId)),
          nextLogId := db.nextLogId + 1 },
        .ok (), [.dispatch "logs:change"]⟩ := by
  simp [DataLayer.recordLog, tableAdd, DataLayer.logEntry, JsVal.field, JsObj.get]

theorem put_ok (db : DB) (store : String) (v k : JsVal) (now : Int)
    (hs : store ∈ STORES)
    (hkf : v.field (keyPathOf store) = some k) (hkv : isValidKey k = true) :
    DataLayer.put db store v now ⟨true, true⟩ =
      ⟨{ db.setStore store (assocPut (db.store store) k v) with
          logs := assocPut (db.setStore store (assocPut (db.store store) k v)).logs
            (.vnum (bumpNext (autoInc store) db.nextLogId k))
            ((DataLayer.logEntry "put" (DataLayer.putPayload store v) now).setField "id"
              (.vnum (bumpNext (autoInc store) db.nextLogId k))),
          nextLogId := bumpNext (autoInc store) db.nextLogId k + 1 },
        .ok v,
        [Event.commit [store], .dispatch "logs:change", .dispatch (store ++ ":change")]⟩ := by
  unfold DataLayer.put tablePut
  rw [hkf]
  simp [hs, hkv, recordLog_ok, DB.setStore_nextLogId]

theorem bulkPut_ok (db : DB) (store : String) (values : List JsVal) (now : Int)
    (t : Table) (n : Int) (hs : store ∈ STORES)
    (hmany : tablePutMany (keyPathOf store) (autoInc store) db.nextLogId
      (db.store store) values = .ok (t, n)) :
    DataLayer.bulkPut db store values now ⟨true, true⟩ =
      ⟨{ db.setStore store t with
          logs := assocPut (db.setStore store t).logs (.vnum n)
            ((DataLayer.logEntry "bulkPut" (DataLayer.bulkPayload store values.length)
              now).setField "id" (.vnum n)),
          nextLogId := n + 1 },
        .ok values,
        [Event.commit [store], .dispatch "logs:change", .dispatch (store ++ ":change")]⟩ := by
  unfold DataLayer.bulkPut
  rw [hmany]
  simp [hs, recordLog_ok]

theorem delete_ok (db : DB) (store : String) (k : JsVal) (now : Int)
    (hs : store ∈ STORES) (hkv : isValidKey k = true) :
    DataLayer.delete db store k now ⟨true, true⟩ =
      ⟨{ db.setStore store (assocDelete (db.store store) k) with
          logs := assocPut (db.setStore store (assocDelete (db.store store) k)).logs
            (.vnum db.nextLogId)
            ((DataLayer.logEntry "delete" (DataLayer.deletePayload store k) now).setField
              "id" (.vnum db.nextLogId)),
          nextLogId := db.nextLogId + 1 },
        .ok (),
        [Event.commit [store], .dispatch "logs:change", .dispatch (store ++ ":change")]⟩ := by
  unfold DataLayer.delete
  simp [hs, hkv, recordLog_ok, DB.setStore_nextLogId]

theorem clearAll_ok (db : DB) (now : Int) :
    DataLayer.clearAll db now ⟨true, true⟩ =
      ⟨{ emptyDB with
          logs := [(.vnum db.nextLogId,
            (DataLayer.logEntry "reset"
              (.vobj (.cons "info" (.vstr "database cleared") .nil)) now).setField "id"
              (.vnum db.nextLogId))],
          nextLogId := db.nextLogId + 1 },
        .ok (),
        [Event.commit STORES, .dispatch "logs:change", .dispatch "db:reset"]⟩ := by
  simp [DataLayer.clearAll, DataLayer.clearedDB, recordLog_ok, emptyDB, assocPut]

theorem seed_ok (db : DB) (data : DataLayer.SeedData) (now : Int) (db1 : DB)
    (hss : DataLayer.seedStores db STORES data = .ok db1) :
    DataLayer.seed db data now ⟨true, true⟩ =
      ⟨{ db1 with
          meta := assocPut db1.meta (.vstr "seeded") (DataLayer.seededMarker now),
          logs := assocPut db1.logs (.vnum db1.nextLogId)
            ((DataLayer.logEntry "seed"
              (.vobj (.cons "info" (.vstr "Seed database loaded") .nil)) now).setField
              "id" (.vnum db1.nextLogId)),
          nextLogId := db1.nextLogId + 1 },
        .ok (), [Event.commit STORES, .dispatch "logs:change"]⟩ := by
  unfold DataLayer.seed
  rw [hss]
  simp [tablePut, DataLayer.seededMarker, JsVal.field, JsObj.get, isValidKey, recordLog_ok]

theorem put_abort (db : DB) (store : String) (v : JsVal) (now : Int) (lo : Bool) :
    (DataLayer.put db store v now ⟨false, lo⟩).db = db ∧
    (DataLayer.put db store v now ⟨false, lo⟩).failed = true ∧
    (DataLayer.put db store v now ⟨false, lo⟩).events = [] := by
  unfold DataLayer.put
  by_cases hs : store ∈ STORES
  · cases h : tablePut (keyPathOf store) (autoInc store) db.nextLogId (db.store store) v <;>
      simp [hs, h, OpRes.failed]
  · simp [hs, OpRes.failed]

theorem bulkPut_abort (db : DB) (store : String) (values : List JsVal) (now : Int)
    (lo : Bool) :
    (DataLayer.bulkPut db store values now ⟨false, lo⟩).db = db ∧
    (DataLayer.bulkPut db store values now ⟨false, lo⟩).failed = true ∧
    (DataLayer.bulkPut db store values now ⟨false, lo⟩).events = [] := by
  unfold DataLayer.bulkPut
  by_cases hs : store ∈ STORES
  · cases h : tablePutMany (keyPathOf store) (autoInc store) db.nextLogId
      (db.store store) values <;> simp [hs, h, OpRes.failed]
  · simp [hs, OpRes.failed]

theorem delete_abort (db : DB) (store : String) (k : JsVal) (now : Int) (lo : Bool) :
    (DataLayer.delete db store k now ⟨false, lo⟩).db = db ∧
    (DataLayer.delete db store k now ⟨false, lo⟩).failed = true ∧
    (DataLayer.delete db store k now ⟨false, lo⟩).events = [] := by
  unfold DataLayer.delete
  by_cases hs : store ∈ STORES
  · by_cases hk : isValidKey k = true <;> simp [hs, hk, OpRes.failed]
  · simp [hs, OpRes.failed]

theorem clearAll_abort (db : DB) (now : Int) (lo : Bool) :
    (DataLayer.clearAll db now ⟨false, lo⟩).db = db ∧
    (DataLayer.clearAll db now ⟨false, lo⟩).failed = true ∧
    (DataLayer.clearAll db now ⟨false, lo⟩).events = [] := by
  simp [DataLayer.clearAll, OpRes.failed]

theorem seed_abort (db : DB) (data : DataLayer.SeedData) (now : Int) (lo : Bool) :
    (DataLayer.seed db data now ⟨false, lo⟩).db = db ∧
    (DataLayer.seed db data now ⟨false, lo⟩).failed = true ∧
    (DataLayer.seed db data now ⟨false, lo⟩).events = [] := by
  unfold DataLayer.seed
  cases hss : DataLayer.seedStores db STORES data with
  | error e => simp [OpRes.failed]
  | ok db1 =>
    cases hm : tablePut "key" false db1.nextLogId db1.meta (DataLayer.seededMarker now) with
    | error e => simp [hm, OpRes.failed]
    | ok r => simp [hm, OpRes.failed]

theorem tablePutMany_assocGet_ne (kp : String) (ai : Bool) (items : List JsVal) :
    ∀ (n : Int) (t t' : Table) (n' : Int) (k : JsVal),
      (∀ v ∈ items, ∀ kv, v.field kp = some kv → kv ≠ k) →
      (∀ v ∈ items, (v.field kp).isSome = true) →
      tablePutMany kp ai n t items = .ok (t', n') →
      assocGet t' k = assocGet t k := by
  induction items with
  | nil =>
    intro n t t' n' k _ _ h
    unfold tablePutMany at h
    injection h with h
    rw [(Prod.mk.injEq _ _ _ _ ▸ h : t = t' ∧ n = n').1.symm]
  | cons v rest ih =>
    intro n t t' n' k hne hkeys h
    obtain ⟨kv, hkv⟩ := Option.isSome_iff_exists.mp (hkeys v (by simp))
    unfold tablePutMany tablePut at h
    rw [hkv] at h
    by_cases hval : isValidKey kv = true
    · simp only [hval, if_true] at h
      have hrec := ih _ _ _ _ k
        (fun u hu ku hku => hne u (by simp [hu]) ku hku)
        (fun u hu => hkeys u (by simp [hu])) h
      rw [hrec]
      exact assocGet_assocPut_ne t kv v k (Ne.symm (hne v (by simp) kv hkv))
    · simp [hval] at h

theorem tablePutMany_assocGet_mem (kp : String) (ai : Bool) (items : List JsVal) :
    ∀ (n : Int) (t t' : Table) (n' : Int) (v kv : JsVal),
      (items.map (fun w => w.field kp)).Nodup →
      (∀ w ∈ items, (w.field kp).isSome = true) →
      v ∈ items → v.field kp = some kv →
      tablePutMany kp ai n t items = .ok (t', n') →
      assocGet t' kv = some v := by
  induction items with
  | nil =>
    intro n t t' n' v kv _ _ hv
    exact absurd hv (by simp)
  | cons w rest ih =>
    intro n t t' n' v kv hnd hkeys hv hkv h
    have hnd' : (∀ x ∈ rest, ¬x.field kp = w.field kp) ∧
        (rest.map (fun u => u.field kp)).Nodup := by simpa using hnd
    obtain ⟨kw, hkw⟩ := Option.isSome_iff_exists.mp (hkeys w (by simp))
    unfold tablePutMany tablePut at h
    rw [hkw] at h
    by_cases hval : isValidKey kw = true
    · simp only [hval, if_true] at h
      rcases List.mem_cons.mp hv with rfl | hvr
      · have hkk : kw = kv := Option.some.inj (hkw.symm.trans hkv)
        rw [hkk] at h
        have hrestne : ∀ u ∈ rest, ∀ ku, u.field kp = some ku → ku ≠ kv := by
          intro u hu ku hku hkuk
          exact hnd'.1 u hu (by rw [hku, hkuk, hkv])
        rw [tablePutMany_assocGet_ne kp ai rest _ _ _ _ kv hrestne
          (fun u hu => hkeys u (by simp [hu])) h]
        exact assocGet_assocPut_self t kv v
      · exact ih _ _ _ _ v kv hnd'.2
          (fun u hu => hkeys u (by simp [hu])) hvr hkv h
    · simp [hval] at h

theorem seedStores_preserves (ss : List String) :
    ∀ (db db' : DB) (data : DataLayer.SeedData) (s : String),
      s ∈ STORES → (∀ x ∈ ss, x ∈ STORES) → s ∉ ss →
      DataLayer.seedStores db ss data = .ok db' → db'.store s = db.store s := by
  induction ss with
  | nil =>
    intro db db' data s _ _ _ h
    unfold DataLayer.seedStores at h
    injection h with h
    rw [h]
  | cons s0 rest ih =>
    intro db db' data s hs hsub hns h
    have hs0 : s0 ∈ STORES := hsub s0 (by simp)
    have hne : s ≠ s0 := fun he => hns (he ▸ List.mem_cons_self _ _)
    have hnr : s ∉ rest := fun hr => hns (List.mem_cons_of_mem _ hr)
    unfold DataLayer.seedStores at h
    by_cases h0 : s0 = "meta"
    · rw [if_pos h0] at h
      exact ih db db' data s hs (fun x hx => hsub x (by simp [hx])) hnr h
    · rw [if_neg h0] at h
      cases hm : tablePutMany (keyPathOf s0) (autoInc s0) db.nextLogId (db.store s0)
        (DataLayer.seedItems data s0) with
      | error e =>
        rw [hm] at h
        cases h
      | ok p =>
        rcases p with ⟨t, n⟩
        rw [hm] at h
        have hrec := ih _ db' data s hs (fun x hx => hsub x (by simp [hx])) hnr h
        rw [hrec, DB.store_withNextLogId _ _ _ hs, DB.store_setStore_ne db s0 s t hs hs0 hne]

theorem seedStores_get (ss : List String) :
    ∀ (db db' : DB) (data : DataLayer.SeedData) (s : String) (v kv : JsVal),
      ss.Nodup → (∀ x ∈ ss, x ∈ STORES) → s ∈ ss → s ≠ "meta" →
      (∀ w ∈ DataLayer.seedItems data s, (w.field (keyPathOf s)).isSome = true) →
      ((DataLayer.seedItems data s).map (fun w => w.field (keyPathOf s))).Nodup →
      v ∈ DataLayer.seedItems data s → v.field (keyPathOf s) = some kv →
      DataLayer.seedStores db ss data = .ok db' →
      assocGet (db'.store s) kv = some v := by
  induction ss with
  | nil =>
    intro db db' data s v kv _ _ hmem
    exact absurd hmem (by simp)
  | cons s0 rest ih =>
    intro db db' data s v kv hnd hsub hmem hsm hkeys hknd hv hkv h
    have hs : s ∈ STORES := hsub s hmem
    unfold DataLayer.seedStores at h
    rcases List.mem_cons.mp hmem with rfl | hsr
    · rw [if_neg hsm] at h
      cases hm : tablePutMany (keyPathOf s) (autoInc s) db.nextLogId (db.store s)
        (DataLayer.seedItems data s) with
      | error e =>
        rw [hm] at h
        cases h
      | ok p =>
        rcases p with ⟨t, n⟩
        rw [hm] at h
        have hsnr : s ∉ rest := (List.nodup_cons.mp hnd).1
        have hpres := seedStores_preserves rest _ db' data s hs
          (fun x hx => hsub x (by simp [hx])) hsnr h
        rw [hpres, DB.store_withNextLogId _ _ _ hs, DB.store_setStore_self _ _ _ hs]
        exact tablePutMany_assocGet_mem _ _ _ _ _ _ _ v kv hknd hkeys hv hkv hm
    · by_cases h0 : s0 = "meta"
      · rw [if_pos h0] at h
        exact ih db db' data s v kv (List.nodup_cons.mp hnd).2
          (fun x hx => hsub x (by simp [hx])) hsr hsm hkeys hknd hv hkv h
      · rw [if_neg h0] at h
        cases hm : tablePutMany (keyPathOf s0) (autoInc s0) db.nextLogId (db.store s0)
          (DataLayer.seedItems data s0) with
        | error e =>
          rw [hm] at h
          cases h
        | ok p =>
          rcases p with ⟨t, n⟩
          rw [hm] at h
          exact ih _ db' data s v kv (List.nodup_cons.mp hnd).2
            (fun x hx => hsub x (by simp [hx])) hsr hsm hkeys hknd hv hkv h

theorem emptyDB_store (s : String) : emptyDB.store s = [] := by
  unfold DB.store emptyDB
  split_ifs <;> rfl

theorem getAllList_none (db : DB) (store : String) (hs : store ∈ STORES) :
    DataLayer.getAllList db store none none = (db.store store).map Prod.snd := by
  simp [DataLayer.getAllList, DataLayer.getAll, hs]

theorem tablePutMany_ai_false_next (kp : String) (items : List JsVal) :
    ∀ (n : Int) (t t' : Table) (n' : Int),
      tablePutMany kp false n t items = .ok (t', n') → n' = n := by
  induction items with
  | nil =>
    intro n t t' n' h
    simp [tablePutMany] at h
    exact h.2.symm
  | cons v rest ih =>
    intro n t t' n' h
    unfold tablePutMany tablePut at h
    cases hf : v.field kp with
    | none =>
      rw [hf] at h
      simp at h
    | some kv =>
      rw [hf] at h
      by_cases hval : isValidKey kv = true
      · simp only [hval, if_true] at h
        have hrec := ih _ _ _ _ h
        simpa [bumpNext] using hrec
      · simp [hval] at h

theorem put_logfail (db : DB) (store : String) (v k : JsVal) (now : Int)
    (hs : store ∈ STORES) (hkf : v.field (keyPathOf store) = some k)
    (hkv : isValidKey k = true) :
    DataLayer.put db store v now ⟨true, false⟩ =
      ⟨{ db.setStore store (assocPut (db.store store) k v) with
          nextLogId := bumpNext (autoInc store) db.nextLogId k },
        .error "AbortError", [Event.commit [store]]⟩ := by
  unfold DataLayer.put tablePut
  rw [hkf]
  simp [hs, hkv, DataLayer.recordLog]

theorem put_get_self (db : DB) (store : String) (v k : JsVal) (now : Int)
    (hs : store ∈ STORES) (hkf : v.field (keyPathOf store) = some k)
    (hkv : isValidKey k = true) :
    DataLayer.get (DataLayer.put db store v now ⟨true, true⟩).db store k =
      .ok (some v) := by
  rw [put_ok db store v k now hs hkf hkv]
  by_cases hlg : store = "logs"
  · subst hlg
    have hne : k ≠ JsVal.vnum (bumpNext (autoInc "logs") db.nextLogId k) := by
      cases k with
      | vnum m =>
        intro heq
        injection heq with h'
        simp [bumpNext, autoInc] at h'
        have h2 := le_max_right db.nextLogId (m + 1)
        rw [← h'] at h2
        omega
      | vnull => simp
      | vbool b => simp
      | vstr s => simp
      | varr a => simp
      | vobj o => simp
    simp only [DataLayer.get, hs, hkv, if_true]
    simp [DB.store, DB.setStore]
    rw [assocGet_assocPut_ne _ _ _ _ hne]
    simp [STORES, assocGet_assocPut_self]
  · simp only [DataLayer.get, hs, hkv, if_true]
    rw [DB.store_withLogs _ _ _ _ hs hlg, DB.store_setStore_self _ _ _ hs]
    rw [assocGet_assocPut_self]
    simpa using hs

/-- C1 counterexample: the claim says any I/O failure leaves every
participating collection unchanged, but when the audit-log write fails after
the main transaction committed, put rejects while the chats collection has
already changed. -/
theorem C1_counterexample :
    (DataLayer.put emptyDB "chats" cChat 7 ⟨true, false⟩).failed = true ∧
    (DataLayer.put emptyDB "chats" cChat 7 ⟨true, false⟩).db.chats ≠ emptyDB.chats := by
  constructor
  · rfl
  · decide

/-- C1 (amended): if a mutating operation's own transaction aborts, the
operation rejects and every collection is left unchanged; in particular an
aborted bulkPut leaves getAll unchanged so none of its records become
visible. A failure of the subsequent audit-log transaction also rejects the
operation, but the already-committed main write remains in place. -/
theorem C1_abort_atomicity (db : DB) (store : String) (v k : JsVal)
    (vs : List JsVal) (dk : JsVal) (data : DataLayer.SeedData) (now : Int) (lo : Bool)
    (hs : store ∈ STORES) (hkf : v.field (keyPathOf store) = some k)
    (hkv : isValidKey k = true) :
    (DataLayer.put db store v now ⟨false, lo⟩).db = db ∧
    (DataLayer.put db store v now ⟨false, lo⟩).failed = true ∧
    (DataLayer.put db store v now ⟨false, lo⟩).events = [] ∧
    (DataLayer.bulkPut db store vs now ⟨false, lo⟩).db = db ∧
    (DataLayer.bulkPut db store vs now ⟨false, lo⟩).failed = true ∧
    DataLayer.getAllList (DataLayer.bulkPut db store vs now ⟨false, lo⟩).db store none none =
      DataLayer.getAllList db store none none ∧
    (DataLayer.delete db store dk now ⟨false, lo⟩).db = db ∧
    (DataLayer.delete db store dk now ⟨false, lo⟩).failed = true ∧
    (DataLayer.clearAll db now ⟨false, lo⟩).db = db ∧
    (DataLayer.clearAll db now ⟨false, lo⟩).failed = true ∧
    (DataLayer.seed db data now ⟨false, lo⟩).db = db ∧
    (DataLayer.seed db data now ⟨false, lo⟩).failed = true ∧
    (DataLayer.put db store v now ⟨true, false⟩).res = .error "AbortError" ∧
    (DataLayer.put db store v now ⟨true, false⟩).db =
      { db.setStore store (assocPut (db.store store) k v) with
          nextLogId := bumpNext (autoInc store) db.nextLogId k } := by
  obtain ⟨hp1, hp2, hp3⟩ := put_abort db store v now lo
  obtain ⟨hb1, hb2, hb3⟩ := bulkPut_abort db store vs now lo
  obtain ⟨hd1, hd2, hd3⟩ := delete_abort db store dk now lo
  obtain ⟨hc1, hc2, hc3⟩ := clearAll_abort db now lo
  obtain ⟨he1, he2, he3⟩ := seed_abort db data now lo
  have hlf := put_logfail db store v k now hs hkf hkv
  exact ⟨hp1, hp2, hp3, hb1, hb2, by rw [hb1], hd1, hd2, hc1, hc2, he1, he2,
    by rw [hlf], by rw [hlf]⟩

/-- C1 witness: the amended statement at a concrete input. -/
theorem C1_witness :
    (DataLayer.put emptyDB "chats" cChat 7 ⟨false, true⟩).db = emptyDB ∧
    (DataLayer.put emptyDB "chats" cChat 7 ⟨false, true⟩).failed = true ∧
    (DataLayer.put emptyDB "chats" cChat 7 ⟨false, true⟩).events = [] ∧
    (DataLayer.bulkPut emptyDB "chats" [cChat] 7 ⟨false, true⟩).db = emptyDB ∧
    (DataLayer.bulkPut emptyDB "chats" [cChat] 7 ⟨false, true⟩).failed = true ∧
    DataLayer.getAllList (DataLayer.bulkPut emptyDB "chats" [cChat] 7 ⟨false, true⟩).db
      "chats" none none = DataLayer.getAllList emptyDB "chats" none none ∧
    (DataLayer.delete emptyDB "chats" (.vstr "c1") 7 ⟨false, true⟩).db = emptyDB ∧
    (DataLayer.delete emptyDB "chats" (.vstr "c1") 7 ⟨false, true⟩).failed = true ∧
    (DataLayer.clearAll emptyDB 7 ⟨false, true⟩).db = emptyDB ∧
    (DataLayer.clearAll emptyDB 7 ⟨false, true⟩).failed = true ∧
    (DataLayer.seed emptyDB seedD 7 ⟨false, true⟩).db = emptyDB ∧
    (DataLayer.seed emptyDB seedD 7 ⟨false, true⟩).failed = true ∧
    (DataLayer.put emptyDB "chats" cChat 7 ⟨true, false⟩).res = .error "AbortError" ∧
    (DataLayer.put emptyDB "chats" cChat 7 ⟨true, false⟩).db =
      { emptyDB.setStore "chats" (assocPut (emptyDB.store "chats") (.vstr "c1") cChat) with
          nextLogId := bumpNext (autoInc "chats") emptyDB.nextLogId (.vstr "c1") } :=
  C1_abort_atomicity emptyDB "chats" cChat (.vstr "c1") [cChat] (.vstr "c1") seedD 7 true
    (by decide) (by decide) (by decide)

/-- C2: a successful put resolves with the value, its observable trace is the
transaction commit followed by the audit-log notification and then exactly one
collection change notification, the written record is already visible to a
fresh get when that notification fires, and an aborted transaction dispatches
nothing at all. -/
theorem C2_notification_after_commit (db : DB) (store : String) (v k : JsVal)
    (now : Int) (lo : Bool) (hs : store ∈ STORES) (hlg : store ≠ "logs")
    (hkf : v.field (keyPathOf store) = some k) (hkv : isValidKey k = true) :
    (DataLayer.put db store v now ⟨true, true⟩).res = .ok v ∧
    (DataLayer.put db store v now ⟨true, true⟩).events =
      [Event.commit [store], .dispatch "logs:change", .dispatch (store ++ ":change")] ∧
    (DataLayer.put db store v now ⟨true, true⟩).events.count
      (Event.dispatch (store ++ ":change")) = 1 ∧
    DataLayer.get (DataLayer.put db store v now ⟨true, true⟩).db store k = .ok (some v) ∧
    (DataLayer.put db store v now ⟨false, lo⟩).events = [] := by
  have hok := put_ok db store v k now hs hkf hkv
  have hne := append_change_ne store hlg
  refine ⟨by rw [hok], by rw [hok], ?_, put_get_self db store v k now hs hkf hkv,
    (put_abort db store v now lo).2.2⟩
  rw [hok]
  simp [List.count_cons, hne, Ne.symm hne]

/-- C2 witness: the notification contract at a concrete chats put. -/
theorem C2_witness :
    (DataLayer.put emptyDB "chats" cChat 7 ⟨true, true⟩).res = .ok cChat ∧
    (DataLayer.put emptyDB "chats" cChat 7 ⟨true, true⟩).events =
      [Event.commit ["chats"], .dispatch "logs:change", .dispatch ("chats" ++ ":change")] ∧
    (DataLayer.put emptyDB "chats" cChat 7 ⟨true, true⟩).events.count
      (Event.dispatch ("chats" ++ ":change")) = 1 ∧
    DataLayer.get (DataLayer.put emptyDB "chats" cChat 7 ⟨true, true⟩).db "chats"
      (.vstr "c1") = .ok (some cChat) ∧
    (DataLayer.put emptyDB "chats" cChat 7 ⟨false, true⟩).events = [] :=
  C2_notification_after_commit emptyDB "chats" cChat (.vstr "c1") 7 true
    (by decide) (by decide) (by decide) (by decide)

/-- C6 counterexample: on the logs collection the record count reported by
getAll is not unchanged by the second put of the same key, because every put
also appends an audit entry to logs. -/
theorem C6_counterexample :
    (DataLayer.put emptyDB "logs" recA 7 ⟨true, true⟩).res = .ok recA ∧
    (DataLayer.put (DataLayer.put emptyDB "logs" recA 7 ⟨true, true⟩).db "logs" recB 8
      ⟨true, true⟩).res = .ok recB ∧
    DataLayer.get (DataLayer.put (DataLayer.put emptyDB "logs" recA 7 ⟨true, true⟩).db
      "logs" recB 8 ⟨true, true⟩).db "logs" (.vstr "k") = .ok (some recB) ∧
    ¬((DataLayer.getAllList (DataLayer.put (DataLayer.put emptyDB "logs" recA 7
        ⟨true, true⟩).db "logs" recB 8 ⟨true, true⟩).db "logs" none none).length =
      (DataLayer.getAllList (DataLayer.put emptyDB "logs" recA 7 ⟨true, true⟩).db
        "logs" none none).length) := by
  refine ⟨rfl, rfl, rfl, by decide⟩

/-- C6 (amended): for every collection other than logs, putting twice at the
same key leaves only the second payload visible and the record count reported
by getAll is unchanged by the second put; for logs itself the count grows
because each put also appends an audit entry. -/
theorem C6_overwrite (db : DB) (store : String) (v1 v2 k : JsVal) (now1 now2 : Int)
    (hs : store ∈ STORES) (hlg : store ≠ "logs")
    (hk1 : v1.field (keyPathOf store) = some k)
    (hk2 : v2.field (keyPathOf store) = some k) (hkv : isValidKey k = true) :
    DataLayer.get (DataLayer.put (DataLayer.put db store v1 now1 ⟨true, true⟩).db
      store v2 now2 ⟨true, true⟩).db store k = .ok (some v2) ∧
    (DataLayer.getAllList (DataLayer.put (DataLayer.put db store v1 now1
        ⟨true, true⟩).db store v2 now2 ⟨true, true⟩).db store none none).length =
      (DataLayer.getAllList (DataLayer.put db store v1 now1 ⟨true, true⟩).db
        store none none).length := by
  have hg2 := put_get_self (DataLayer.put db store v1 now1 ⟨true, true⟩).db
    store v2 k now2 hs hk2 hkv
  refine ⟨hg2, ?_⟩
  have hok1 := put_ok db store v1 k now1 hs hk1 hkv
  have hd1 : (DataLayer.put db store v1 now1 ⟨true, true⟩).db.store store =
      assocPut (db.store store) k v1 := by
    rw [hok1]
    rw [DB.store_withLogs _ _ _ _ hs hlg, DB.store_setStore_self _ _ _ hs]
  have hok2 := put_ok (DataLayer.put db store v1 now1 ⟨true, true⟩).db
    store v2 k now2 hs hk2 hkv
  have hd2 : (DataLayer.put (DataLayer.put db store v1 now1 ⟨true, true⟩).db
      store v2 now2 ⟨true, true⟩).db.store store =
      assocPut ((DataLayer.put db store v1 now1 ⟨true, true⟩).db.store store) k v2 := by
    rw [hok2]
    rw [DB.store_withLogs _ _ _ _ hs hlg, DB.store_setStore_self _ _ _ hs]
  rw [getAllList_none _ _ hs, getAllList_none _ _ hs, hd2, hd1]
  simp only [List.length_map]
  apply length_assocPut_of_mem
  rw [assocGet_assocPut_self]
  rfl

/-- C6 witness: overwrite semantics at a concrete users put pair. -/
theorem C6_witness :
    DataLayer.get (DataLayer.put (DataLayer.put emptyDB "users" recA 7 ⟨true, true⟩).db
      "users" recB 8 ⟨true, true⟩).db "users" (.vstr "k") = .ok (some recB) ∧
    (DataLayer.getAllList (DataLayer.put (DataLayer.put emptyDB "users" recA 7
        ⟨true, true⟩).db "users" recB 8 ⟨true, true⟩).db "users" none none).length =
      (DataLayer.getAllList (DataLayer.put emptyDB "users" recA 7 ⟨true, true⟩).db
        "users" none none).length :=
  C6_overwrite emptyDB "users" recA recB (.vstr "k") 7 8
    (by decide) (by decide) (by decide) (by decide) (by decide)

/-- C9: put persists exactly the given record with no transformation, resolves
with the stored record, and a fresh get at the record's key returns it; this
holds for every store, including the autoIncrement logs store when the record
carries its own key. -/
theorem C9_put_roundtrip (db : DB) (store : String) (v k : JsVal) (now : Int)
    (hs : store ∈ STORES) (hkf : v.field (keyPathOf store) = some k)
    (hkv : isValidKey k = true) :
    (DataLayer.put db store v now ⟨true, true⟩).res = .ok v ∧
    DataLayer.get (DataLayer.put db store v now ⟨true, true⟩).db store k =
      .ok (some v) := by
  refine ⟨?_, put_get_self db store v k now hs hkf hkv⟩
  rw [put_ok db store v k now hs hkf hkv]

/-- C9 witness: the round trip at a concrete messages put. -/
theorem C9_witness :
    (DataLayer.put emptyDB "messages" mMsg 7 ⟨true, true⟩).res = .ok mMsg ∧
    DataLayer.get (DataLayer.put emptyDB "messages" mMsg 7 ⟨true, true⟩).db "messages"
      (.vstr "m1") = .ok (some mMsg) :=
  C9_put_roundtrip emptyDB "messages" mMsg (.vstr "m1") 7
    (by decide) (by decide) (by decide)

/-- C3 counterexample: the logs record count is not monotonically
non-decreasing over the session: after two puts the logs count is 2, and a
subsequent clearAll leaves it at 1. -/
theorem C3_counterexample :
    (DataLayer.clearAll (DataLayer.put (DataLayer.put emptyDB "chats" cChat 7
      ⟨true, true⟩).db "chats" cChat 8 ⟨true, true⟩).db 9 ⟨true, true⟩).res = .ok () ∧
    (DataLayer.getAllList (DataLayer.put (DataLayer.put emptyDB "chats" cChat 7
      ⟨true, true⟩).db "chats" cChat 8 ⟨true, true⟩).db "logs" none none).length = 2 ∧
    (DataLayer.getAllList (DataLayer.clearAll (DataLayer.put (DataLayer.put emptyDB
      "chats" cChat 7 ⟨true, true⟩).db "chats" cChat 8 ⟨true, true⟩).db 9
      ⟨true, true⟩).db "logs" none none).length <
    (DataLayer.getAllList (DataLayer.put (DataLayer.put emptyDB "chats" cChat 7
      ⟨true, true⟩).db "chats" cChat 8 ⟨true, true⟩).db "logs" none none).length := by
  refine ⟨rfl, rfl, by decide⟩

/-- C3 (amended): every successful mutating operation appends exactly one
audit LogEntry to logs, keyed by the current generator value (which then
increments, so keys are monotonically assigned) and carrying the action name,
payload snapshot and timestamp; put, bulkPut, delete and seed grow the logs
count by one, while clearAll first empties logs inside its transaction and so
resets the count to exactly one. -/
theorem C3_audit_append (db : DB) (store : String) (v k dk : JsVal)
    (vs : List JsVal) (t : Table) (n : Int) (data : DataLayer.SeedData) (db1 : DB)
    (now : Int) (hs : store ∈ STORES) (hlg : store ≠ "logs")
    (hkf : v.field (keyPathOf store) = some k) (hkv : isValidKey k = true)
    (hdk : isValidKey dk = true)
    (hfresh : assocGet db.logs (.vnum db.nextLogId) = none)
    (hmany : tablePutMany (keyPathOf store) (autoInc store) db.nextLogId
      (db.store store) vs = .ok (t, n))
    (hss : DataLayer.seedStores db STORES data = .ok db1)
    (hfresh1 : assocGet db1.logs (.vnum db1.nextLogId) = none) :
    (DataLayer.put db store v now ⟨true, true⟩).db.logs =
      assocPut db.logs (.vnum db.nextLogId)
        ((DataLayer.logEntry "put" (DataLayer.putPayload store v) now).setField "id"
          (.vnum db.nextLogId)) ∧
    (DataLayer.put db store v now ⟨true, true⟩).db.logs.length = db.logs.length + 1 ∧
    (DataLayer.put db store v now ⟨true, true⟩).db.nextLogId = db.nextLogId + 1 ∧
    assocGet (DataLayer.put db store v now ⟨true, true⟩).db.logs (.vnum db.nextLogId) =
      some ((DataLayer.logEntry "put" (DataLayer.putPayload store v) now).setField "id"
        (.vnum db.nextLogId)) ∧
    (DataLayer.delete db store dk now ⟨true, true⟩).db.logs.length =
      db.logs.length + 1 ∧
    assocGet (DataLayer.delete db store dk now ⟨true, true⟩).db.logs
      (.vnum db.nextLogId) =
      some ((DataLayer.logEntry "delete" (DataLayer.deletePayload store dk)
        now).setField "id" (.vnum db.nextLogId)) ∧
    (DataLayer.bulkPut db store vs now ⟨true, true⟩).db.logs.length =
      db.logs.length + 1 ∧
    assocGet (DataLayer.bulkPut db store vs now ⟨true, true⟩).db.logs
      (.vnum db.nextLogId) =
      some ((DataLayer.logEntry "bulkPut" (DataLayer.bulkPayload store vs.length)
        now).setField "id" (.vnum db.nextLogId)) ∧
    (DataLayer.clearAll db now ⟨true, true⟩).db.logs =
      [(.vnum db.nextLogId,
        (DataLayer.logEntry "reset" (.vobj (.cons "info" (.vstr "database cleared")
          .nil)) now).setField "id" (.vnum db.nextLogId))] ∧
    (DataLayer.clearAll db now ⟨true, true⟩).db.logs.length = 1 ∧
    (DataLayer.clearAll db now ⟨true, true⟩).db.nextLogId = db.nextLogId + 1 ∧
    (DataLayer.seed db data now ⟨true, true⟩).db.logs.length = db1.logs.length + 1 ∧
    assocGet (DataLayer.seed db data now ⟨true, true⟩).db.logs
      (.vnum db1.nextLogId) =
      some ((DataLayer.logEntry "seed" (.vobj (.cons "info"
        (.vstr "Seed database loaded") .nil)) now).setField "id"
        (.vnum db1.nextLogId)) := by
  have hai : autoInc store = false := by simp [autoInc, hlg]
  have hbump : ∀ kk : JsVal, bumpNext (autoInc store) db.nextLogId kk = db.nextLogId := by
    intro kk
    rw [hai]
    simp [bumpNext]
  have hok := put_ok db store v k now hs hkf hkv
  have hplogs : (DataLayer.put db store v now ⟨true, true⟩).db.logs =
      assocPut db.logs (.vnum db.nextLogId)
        ((DataLayer.logEntry "put" (DataLayer.putPayload store v) now).setField "id"
          (.vnum db.nextLogId)) := by
    rw [hok]
    dsimp only
    rw [DB.setStore_logs db store _ hlg, hbump k]
  have hdok := delete_ok db store dk now hs hdk
  have hdlogs : (DataLayer.delete db store dk now ⟨true, true⟩).db.logs =
      assocPut db.logs (.vnum db.nextLogId)
        ((DataLayer.logEntry "delete" (DataLayer.deletePayload store dk)
          now).setField "id" (.vnum db.nextLogId)) := by
    rw [hdok]
    dsimp only
    rw [DB.setStore_logs db store _ hlg]
  have hmany' := hmany
  rw [hai] at hmany'
  have hn : n = db.nextLogId := tablePutMany_ai_false_next _ _ _ _ _ _ hmany'
  have hbok := bulkPut_ok db store vs now t n hs hmany
  have hblogs : (DataLayer.bulkPut db store vs now ⟨true, true⟩).db.logs =
      assocPut db.logs (.vnum db.nextLogId)
        ((DataLayer.logEntry "bulkPut" (DataLayer.bulkPayload store vs.length)
          now).setField "id" (.vnum db.nextLogId)) := by
    rw [hbok]
    dsimp only
    rw [DB.setStore_logs db store _ hlg, hn]
  have hcok := clearAll_ok db now
  have hsok := seed_ok db data now db1 hss
  refine ⟨hplogs, ?_, ?_, ?_, ?_, ?_, ?_, ?_, ?_, ?_, ?_, ?_, ?_⟩
  · rw [hplogs]
    exact length_assocPut_of_fresh _ _ _ hfresh
  · rw [hok]
    dsimp only
    rw [hbump k]
  · rw [hplogs]
    exact assocGet_assocPut_self _ _ _
  · rw [hdlogs]
    exact length_assocPut_of_fresh _ _ _ hfresh
  · rw [hdlogs]
    exact assocGet_assocPut_self _ _ _
  · rw [hblogs]
    exact length_assocPut_of_fresh _ _ _ hfresh
  · rw [hblogs]
    exact assocGet_assocPut_self _ _ _
  · rw [hcok]
  · rw [hcok]
    rfl
  · rw [hcok]
  · rw [hsok]
    dsimp only
    exact length_assocPut_of_fresh _ _ _ hfresh1
  · rw [hsok]
    dsimp only
    exact assocGet_assocPut_self _ _ _

/-- C3 witness: the amended audit statement at concrete inputs. -/
theorem C3_witness :
    (DataLayer.put emptyDB "chats" cChat 7 ⟨true, true⟩).db.logs =
      assocPut emptyDB.logs (.vnum emptyDB.nextLogId)
        ((DataLayer.logEntry "put" (DataLayer.putPayload "chats" cChat) 7).setField "id"
          (.vnum emptyDB.nextLogId)) ∧
    (DataLayer.put emptyDB "chats" cChat 7 ⟨true, true⟩).db.logs.length =
      emptyDB.logs.length + 1 ∧
    (DataLayer.put emptyDB "chats" cChat 7 ⟨true, true⟩).db.nextLogId =
      emptyDB.nextLogId + 1 ∧
    assocGet (DataLayer.put emptyDB "chats" cChat 7 ⟨true, true⟩).db.logs
      (.vnum emptyDB.nextLogId) =
      some ((DataLayer.logEntry "put" (DataLayer.putPayload "chats" cChat) 7).setField
        "id" (.vnum emptyDB.nextLogId)) ∧
    (DataLayer.delete emptyDB "chats" (.vstr "x") 7 ⟨true, true⟩).db.logs.length =
      emptyDB.logs.length + 1 ∧
    assocGet (DataLayer.delete emptyDB "chats" (.vstr "x") 7 ⟨true, true⟩).db.logs
      (.vnum emptyDB.nextLogId) =
      some ((DataLayer.logEntry "delete" (DataLayer.deletePayload "chats" (.vstr "x"))
        7).setField "id" (.vnum emptyDB.nextLogId)) ∧
    (DataLayer.bulkPut emptyDB "chats" [cChat] 7 ⟨true, true⟩).db.logs.length =
      emptyDB.logs.length + 1 ∧
    assocGet (DataLayer.bulkPut emptyDB "chats" [cChat] 7 ⟨true, true⟩).db.logs
      (.vnum emptyDB.nextLogId) =
      some ((DataLayer.logEntry "bulkPut" (DataLayer.bulkPayload "chats"
        [cChat].length) 7).setField "id" (.vnum emptyDB.nextLogId)) ∧
    (DataLayer.clearAll emptyDB 7 ⟨true, true⟩).db.logs =
      [(.vnum emptyDB.nextLogId,
        (DataLayer.logEntry "reset" (.vobj (.cons "info" (.vstr "database cleared")
          .nil)) 7).setField "id" (.vnum emptyDB.nextLogId))] ∧
    (DataLayer.clearAll emptyDB 7 ⟨true, true⟩).db.logs.length = 1 ∧
    (DataLayer.clearAll emptyDB 7 ⟨true, true⟩).db.nextLogId = emptyDB.nextLogId + 1 ∧
    (DataLayer.seed emptyDB seedD 7 ⟨true, true⟩).db.logs.length =
      (⟨[], [(.vstr "u1", uRec)], [], [], [], [], [], [], [], 1⟩ : DB).logs.length + 1 ∧
    assocGet (DataLayer.seed emptyDB seedD 7 ⟨true, true⟩).db.logs
      (.vnum (⟨[], [(.vstr "u1", uRec)], [], [], [], [], [], [], [], 1⟩ : DB).nextLogId) =
      some ((DataLayer.logEntry "seed" (.vobj (.cons "info"
        (.vstr "Seed database loaded") .nil)) 7).setField "id"
        (.vnum (⟨[], [(.vstr "u1", uRec)], [], [], [], [], [], [], [], 1⟩ : DB).nextLogId)) :=
  C3_audit_append emptyDB "chats" cChat (.vstr "c1") (.vstr "x") [cChat]
    [(.vstr "c1", cChat)] 1 seedD ⟨[], [(.vstr "u1", uRec)], [], [], [], [], [], [], [], 1⟩
    7 (by decide) (by decide) (by decide) (by decide) (by decide) (by decide)
    rfl rfl (by decide)

/-- C4: after a successful clearAll, getAll returns the empty sequence for
every collection except logs, logs holds exactly the one reset entry that
clearAll itself logged, the emptying is one transaction spanning all stores,
and the operation dispatches the distinct db:reset notification but no
collection change notification for any cleared store. -/
theorem C4_clearAll_reset (db : DB) (s : String) (now : Int)
    (hs : s ∈ STORES) (hsl : s ≠ "logs") :
    (DataLayer.clearAll db now ⟨true, true⟩).res = .ok () ∧
    DataLayer.getAll (DataLayer.clearAll db now ⟨true, true⟩).db s none none = .ok [] ∧
    DataLayer.getAll (DataLayer.clearAll db now ⟨true, true⟩).db "logs" none none =
      .ok [(DataLayer.logEntry "reset" (.vobj (.cons "info" (.vstr "database cleared")
        .nil)) now).setField "id" (.vnum db.nextLogId)] ∧
    (DataLayer.clearAll db now ⟨true, true⟩).events =
      [Event.commit STORES, .dispatch "logs:change", .dispatch "db:reset"] ∧
    Event.dispatch (s ++ ":change") ∉ (DataLayer.clearAll db now ⟨true, true⟩).events := by
  rw [clearAll_ok db now]
  simp [STORES] at hs
  rcases hs with rfl | rfl | rfl | rfl | rfl | rfl | rfl | rfl | rfl
  all_goals
    first
      | exact absurd rfl hsl
      | exact ⟨rfl, by simp [DataLayer.getAll, DB.store, STORES, emptyDB],
          by simp [DataLayer.getAll, DB.store, STORES, emptyDB], rfl,
          by dsimp only; decide⟩

/-- C4 witness: the reset contract at a concrete database and store. -/
theorem C4_witness :
    (DataLayer.clearAll (DataLayer.put emptyDB "chats" cChat 7 ⟨true, true⟩).db 9
      ⟨true, true⟩).res = .ok () ∧
    DataLayer.getAll (DataLayer.clearAll (DataLayer.put emptyDB "chats" cChat 7
      ⟨true, true⟩).db 9 ⟨true, true⟩).db "chats" none none = .ok [] ∧
    DataLayer.getAll (DataLayer.clearAll (DataLayer.put emptyDB "chats" cChat 7
      ⟨true, true⟩).db 9 ⟨true, true⟩).db "logs" none none =
      .ok [(DataLayer.logEntry "reset" (.vobj (.cons "info" (.vstr "database cleared")
        .nil)) 9).setField "id"
        (.vnum (DataLayer.put emptyDB "chats" cChat 7 ⟨true, true⟩).db.nextLogId)] ∧
    (DataLayer.clearAll (DataLayer.put emptyDB "chats" cChat 7 ⟨true, true⟩).db 9
      ⟨true, true⟩).events =
      [Event.commit STORES, .dispatch "logs:change", .dispatch "db:reset"] ∧
    Event.dispatch ("chats" ++ ":change") ∉
      (DataLayer.clearAll (DataLayer.put emptyDB "chats" cChat 7 ⟨true, true⟩).db 9
        ⟨true, true⟩).events :=
  C4_clearAll_reset (DataLayer.put emptyDB "chats" cChat 7 ⟨true, true⟩).db "chats" 9
    (by decide) (by decide)

/-- C8: get on a missing key resolves successfully with an absent result, and
delete on a nonexistent key resolves successfully while still appending
exactly one delete entry to logs. -/
theorem C8_absence_not_error (db : DB) (store : String) (k : JsVal) (now : Int)
    (hs : store ∈ STORES) (hkv : isValidKey k = true)
    (hmiss : assocGet (db.store store) k = none)
    (hfresh : assocGet db.logs (.vnum db.nextLogId) = none) :
    DataLayer.get db store k = .ok none ∧
    (DataLayer.delete db store k now ⟨true, true⟩).res = .ok () ∧
    (DataLayer.delete db store k now ⟨true, true⟩).db.logs.length =
      db.logs.length + 1 ∧
    assocGet (DataLayer.delete db store k now ⟨true, true⟩).db.logs
      (.vnum db.nextLogId) =
      some ((DataLayer.logEntry "delete" (DataLayer.deletePayload store k)
        now).setField "id" (.vnum db.nextLogId)) := by
  have hdok := delete_ok db store k now hs hkv
  have hlogs : (db.setStore store (assocDelete (db.store store) k)).logs = db.logs := by
    by_cases hlg : store = "logs"
    · subst hlg
      have hmiss2 : assocGet db.logs k = none := by simpa [DB.store] using hmiss
      simp [DB.setStore, DB.store, assocDelete_of_fresh db.logs k hmiss2]
    · exact DB.setStore_logs db store _ hlg
  refine ⟨?_, ?_, ?_, ?_⟩
  · simp [DataLayer.get, hkv, hmiss]
    exact hs
  · rw [hdok]
  · rw [hdok]
    dsimp only
    rw [hlogs]
    exact length_assocPut_of_fresh _ _ _ hfresh
  · rw [hdok]
    dsimp only
    rw [hlogs]
    exact assocGet_assocPut_self _ _ _

/-- C8 witness: absence handling at a concrete likes store key. -/
theorem C8_witness :
    DataLayer.get emptyDB "likes" (.vstr "like-404") = .ok none ∧
    (DataLayer.delete emptyDB "likes" (.vstr "like-404") 7 ⟨true, true⟩).res = .ok () ∧
    (DataLayer.delete emptyDB "likes" (.vstr "like-404") 7 ⟨true, true⟩).db.logs.length =
      emptyDB.logs.length + 1 ∧
    assocGet (DataLayer.delete emptyDB "likes" (.vstr "like-404") 7
      ⟨true, true⟩).db.logs (.vnum emptyDB.nextLogId) =
      some ((DataLayer.logEntry "delete" (DataLayer.deletePayload "likes"
        (.vstr "like-404")) 7).setField "id" (.vnum emptyDB.nextLogId)) :=
  C8_absence_not_error emptyDB "likes" (.vstr "like-404") 7
    (by decide) (by decide) (by decide) (by decide)

/-- C10: every successful mutating operation dispatches one logs change
notification through recordLog, so a put targeting the logs collection itself
notifies logs change subscribers twice: once from recordLog and once from the
collection change dispatch. -/
theorem C10_logs_change_fanout (db : DB) (store : String) (v k dk vl lk : JsVal)
    (vs : List JsVal) (t : Table) (n : Int) (data : DataLayer.SeedData) (db1 : DB)
    (now : Int) (hs : store ∈ STORES) (hlg : store ≠ "logs")
    (hkf : v.field (keyPathOf store) = some k) (hkv : isValidKey k = true)
    (hdk : isValidKey dk = true)
    (hmany : tablePutMany (keyPathOf store) (autoInc store) db.nextLogId
      (db.store store) vs = .ok (t, n))
    (hss : DataLayer.seedStores db STORES data = .ok db1)
    (hlk : vl.field (keyPathOf "logs") = some lk) (hlkv : isValidKey lk = true) :
    (DataLayer.put db store v now ⟨true, true⟩).events.count
      (Event.dispatch "logs:change") = 1 ∧
    (DataLayer.delete db store dk now ⟨true, true⟩).events.count
      (Event.dispatch "logs:change") = 1 ∧
    (DataLayer.bulkPut db store vs now ⟨true, true⟩).events.count
      (Event.dispatch "logs:change") = 1 ∧
    (DataLayer.clearAll db now ⟨true, true⟩).events.count
      (Event.dispatch "logs:change") = 1 ∧
    (DataLayer.seed db data now ⟨true, true⟩).events.count
      (Event.dispatch "logs:change") = 1 ∧
    (DataLayer.put db "logs" vl now ⟨true, true⟩).events.count
      (Event.dispatch "logs:change") = 2 := by
  have hne := append_change_ne store hlg
  refine ⟨?_, ?_, ?_, ?_, ?_, ?_⟩
  · rw [put_ok db store v k now hs hkf hkv]
    simp [List.count_cons, hne, Ne.symm hne]
  · rw [delete_ok db store dk now hs hdk]
    simp [List.count_cons, hne, Ne.symm hne]
  · rw [bulkPut_ok db store vs now t n hs hmany]
    simp [List.count_cons, hne, Ne.symm hne]
  · rw [clearAll_ok db now]
    dsimp only
    decide
  · rw [seed_ok db data now db1 hss]
    dsimp only
    decide
  · rw [put_ok db "logs" vl lk now (by decide) hlk hlkv]
    dsimp only
    decide

/-- C10 witness: the logs change fan-out at concrete inputs. -/
theorem C10_witness :
    (DataLayer.put emptyDB "chats" cChat 7 ⟨true, true⟩).events.count
      (Event.dispatch "logs:change") = 1 ∧
    (DataLayer.delete emptyDB "chats" (.vstr "x") 7 ⟨true, true⟩).events.count
      (Event.dispatch "logs:change") = 1 ∧
    (DataLayer.bulkPut emptyDB "chats" [cChat] 7 ⟨true, true⟩).events.count
      (Event.dispatch "logs:change") = 1 ∧
    (DataLayer.clearAll emptyDB 7 ⟨true, true⟩).events.count
      (Event.dispatch "logs:change") = 1 ∧
    (DataLayer.seed emptyDB seedD 7 ⟨true, true⟩).events.count
      (Event.dispatch "logs:change") = 1 ∧
    (DataLayer.put emptyDB "logs" recA 7 ⟨true, true⟩).events.count
      (Event.dispatch "logs:change") = 2 :=
  C10_logs_change_fanout emptyDB "chats" cChat (.vstr "c1") (.vstr "x") recA
    (.vstr "k") [cChat] [(.vstr "c1", cChat)] 1 seedD
    ⟨[], [(.vstr "u1", uRec)], [], [], [], [], [], [], [], 1⟩ 7
    (by decide) (by decide) (by decide) (by decide) (by decide) rfl rfl
    (by decide) (by decide)

/-- C5: index queries are exact: the by chat index returns exactly the
messages whose chatId equals the query, and a chat whose participants array
contains P1 and P2 is returned by the multiEntry participants index for both
values. -/
theorem C5_index_queries (db : DB) (C k c P1 P2 : JsVal) (ps : JsArr)
    (hC : isValidKey C = true)
    (hc : (k, c) ∈ db.chats) (hp : c.field "participants" = some (.varr ps))
    (h1 : ps.hasVal P1 = true) (h2 : ps.hasVal P2 = true)
    (hP1 : isValidKey P1 = true) (hP2 : isValidKey P2 = true) :
    DataLayer.getAll db "messages" (some "by_chat") (some C) =
      .ok ((db.messages.map Prod.snd).filter (fun m => m.field "chatId" == some C)) ∧
    c ∈ DataLayer.getAllList db "chats" (some "by_participant") (some P1) ∧
    c ∈ DataLayer.getAllList db "chats" (some "by_participant") (some P2) := by
  have hmem : c ∈ db.chats.map Prod.snd := List.mem_map.mpr ⟨(k, c), hc, rfl⟩
  refine ⟨?_, ?_, ?_⟩
  · simp only [DataLayer.getAll]
    simp [STORES, indexSpec, hC, DB.store]
    apply List.filter_congr
    intro m _
    cases hm : m.field "chatId" with
    | none => simp [indexMatches, hm]
    | some w => by_cases hwC : w = C <;> simp [indexMatches, hm, hwC]
  · simp only [DataLayer.getAllList, DataLayer.getAll]
    simp [STORES, indexSpec, hP1, DB.store, List.mem_filter]
    exact ⟨⟨k, hc⟩, by simp [indexMatches, hp, h1]⟩
  · simp only [DataLayer.getAllList, DataLayer.getAll]
    simp [STORES, indexSpec, hP2, DB.store, List.mem_filter]
    exact ⟨⟨k, hc⟩, by simp [indexMatches, hp, h2]⟩

/-- C5 witness: index exactness and multiEntry membership at a concrete
database holding one message and one chat. -/
theorem C5_witness :
    DataLayer.getAll (DataLayer.put (DataLayer.put emptyDB "chats" cChat 7
      ⟨true, true⟩).db "messages" mMsg 8 ⟨true, true⟩).db "messages"
      (some "by_chat") (some (.vstr "c1")) =
      .ok (((DataLayer.put (DataLayer.put emptyDB "chats" cChat 7 ⟨true, true⟩).db
        "messages" mMsg 8 ⟨true, true⟩).db.messages.map Prod.snd).filter
        (fun m => m.field "chatId" == some (.vstr "c1"))) ∧
    cChat ∈ DataLayer.getAllList (DataLayer.put (DataLayer.put emptyDB "chats" cChat 7
      ⟨true, true⟩).db "messages" mMsg 8 ⟨true, true⟩).db "chats"
      (some "by_participant") (some (.vstr "p1")) ∧
    cChat ∈ DataLayer.getAllList (DataLayer.put (DataLayer.put emptyDB "chats" cChat 7
      ⟨true, true⟩).db "messages" mMsg 8 ⟨true, true⟩).db "chats"
      (some "by_participant") (some (.vstr "p2")) :=
  C5_index_queries (DataLayer.put (DataLayer.put emptyDB "chats" cChat 7
      ⟨true, true⟩).db "messages" mMsg 8 ⟨true, true⟩).db
    (.vstr "c1") (.vstr "c1") cChat (.vstr "p1") (.vstr "p2")
    (.cons (.vstr "p1") (.cons (.vstr "p2") .nil))
    (by decide) (by decide) (by decide) (by decide) (by decide) (by decide) (by decide)

theorem DB.store_withMetaLogs (db : DB) (tm tl : Table) (n : Int) (s : String)
    (hs : s ∈ STORES) (hm : s ≠ "meta") (hl : s ≠ "logs") :
    DB.store { db with meta := tm, logs := tl, nextLogId := n } s = db.store s := by
  simp [STORES] at hs
  rcases hs with rfl | rfl | rfl | rfl | rfl | rfl | rfl | rfl | rfl <;>
    first
      | exact absurd rfl hm
      | exact absurd rfl hl
      | rfl

/-- C7: open returns at once when already connected; a fresh open seeds only
when the meta seeded marker is absent; seed on success writes the provided
seed records for every collection except meta and the seeded marker in one
transaction spanning all stores, is all-or-nothing on abort, and a subsequent
fresh open after a successful seed does not seed again. -/
theorem C7_open_seed_idempotent (ly1 ly2 ly3 : Layer) (db db1 : DB)
    (data data2 : DataLayer.SeedData) (now now2 : Int) (o o2 : Outcome) (m : JsVal)
    (lo : Bool) (s : String) (v kv : JsVal)
    (h1 : ly1.connected = true)
    (h2c : ly2.connected = false)
    (h2m : assocGet ly2.db.meta (.vstr "seeded") = some m)
    (h3c : ly3.connected = false)
    (h3m : assocGet ly3.db.meta (.vstr "seeded") = none)
    (hss : DataLayer.seedStores db STORES data = .ok db1)
    (hs : s ∈ STORES) (hsm : s ≠ "meta") (hsl : s ≠ "logs")
    (hkeys : ∀ w ∈ DataLayer.seedItems data s, (w.field (keyPathOf s)).isSome = true)
    (hknd : ((DataLayer.seedItems data s).map (fun w => w.field (keyPathOf s))).Nodup)
    (hv : v ∈ DataLayer.seedItems data s) (hkv2 : v.field (keyPathOf s) = some kv) :
    DataLayer.openDB ly1 data now o = ⟨ly1, .ok (), []⟩ ∧
    DataLayer.openDB ly2 data now o = ⟨{ ly2 with connected := true }, .ok (), []⟩ ∧
    DataLayer.openDB ly3 data now o =
      ⟨⟨true, (DataLayer.seed ly3.db data now o).db⟩,
        (DataLayer.seed ly3.db data now o).res,
        (DataLayer.seed ly3.db data now o).events⟩ ∧
    (DataLayer.seed db data now ⟨true, true⟩).res = .ok () ∧
    assocGet (DataLayer.seed db data now ⟨true, true⟩).db.meta (.vstr "seeded") =
      some (DataLayer.seededMarker now) ∧
    (DataLayer.seed db data now ⟨true, true⟩).events =
      [Event.commit STORES, .dispatch "logs:change"] ∧
    assocGet ((DataLayer.seed db data now ⟨true, true⟩).db.store s) kv = some v ∧
    (DataLayer.seed db data now ⟨false, lo⟩).db = db ∧
    (DataLayer.seed db data now ⟨false, lo⟩).failed = true ∧
    DataLayer.openDB ⟨false, (DataLayer.seed db data now ⟨true, true⟩).db⟩ data2 now2 o2 =
      ⟨⟨true, (DataLayer.seed db data now ⟨true, true⟩).db⟩, .ok (), []⟩ := by
  have hsok := seed_ok db data now db1 hss
  have hmarker : assocGet (DataLayer.seed db data now ⟨true, true⟩).db.meta
      (.vstr "seeded") = some (DataLayer.seededMarker now) := by
    rw [hsok]
    dsimp only
    exact assocGet_assocPut_self _ _ _
  obtain ⟨ha1, ha2, ha3⟩ := seed_abort db data now lo
  refine ⟨?_, ?_, ?_, ?_, hmarker, ?_, ?_, ha1, ha2, ?_⟩
  · simp [DataLayer.openDB, h1]
  · simp [DataLayer.openDB, h2c, DataLayer.get, DB.store, STORES, h2m, isValidKey]
  · simp [DataLayer.openDB, h3c, DataLayer.get, DB.store, STORES, h3m, isValidKey]
  · rw [hsok]
  · rw [hsok]
  · rw [hsok]
    dsimp only
    rw [DB.store_withMetaLogs db1 _ _ _ s hs hsm hsl]
    exact seedStores_get STORES db db1 data s v kv (by decide) (fun x hx => hx)
      hs hsm hkeys hknd hv hkv2 hss
  · simp [DataLayer.openDB, DataLayer.get, DB.store, STORES, hmarker, isValidKey]

/-- C7 witness: the open and seed contract at concrete layers and seed data. -/
theorem C7_witness :
    DataLayer.openDB ⟨true, emptyDB⟩ seedD 7 ⟨true, true⟩ =
      ⟨⟨true, emptyDB⟩, .ok (), []⟩ ∧
    DataLayer.openDB ⟨false, ⟨[(.vstr "seeded", DataLayer.seededMarker 5)],
        [], [], [], [], [], [], [], [], 1⟩⟩ seedD 7 ⟨true, true⟩ =
      ⟨{ (⟨false, ⟨[(.vstr "seeded", DataLayer.seededMarker 5)],
          [], [], [], [], [], [], [], [], 1⟩⟩ : Layer) with connected := true },
        .ok (), []⟩ ∧
    DataLayer.openDB ⟨false, emptyDB⟩ seedD 7 ⟨true, true⟩ =
      ⟨⟨true, (DataLayer.seed (Layer.mk false emptyDB).db seedD 7 ⟨true, true⟩).db⟩,
        (DataLayer.seed (Layer.mk false emptyDB).db seedD 7 ⟨true, true⟩).res,
        (DataLayer.seed (Layer.mk false emptyDB).db seedD 7 ⟨true, true⟩).events⟩ ∧
    (DataLayer.seed emptyDB seedD 7 ⟨true, true⟩).res = .ok () ∧
    assocGet (DataLayer.seed emptyDB seedD 7 ⟨true, true⟩).db.meta (.vstr "seeded") =
      some (DataLayer.seededMarker 7) ∧
    (DataLayer.seed emptyDB seedD 7 ⟨true, true⟩).events =
      [Event.commit STORES, .dispatch "logs:change"] ∧
    assocGet ((DataLayer.seed emptyDB seedD 7 ⟨true, true⟩).db.store "users")
      (.vstr "u1") = some uRec ∧
    (DataLayer.seed emptyDB seedD 7 ⟨false, true⟩).db = emptyDB ∧
    (DataLayer.seed emptyDB seedD 7 ⟨false, true⟩).failed = true ∧
    DataLayer.openDB ⟨false, (DataLayer.seed emptyDB seedD 7 ⟨true, true⟩).db⟩ seedD 8
      ⟨true, true⟩ =
      ⟨⟨true, (DataLayer.seed emptyDB seedD 7 ⟨true, true⟩).db⟩, .ok (), []⟩ :=
  C7_open_seed_idempotent ⟨true, emptyDB⟩
    ⟨false, ⟨[(.vstr "seeded", DataLayer.seededMarker 5)],
      [], [], [], [], [], [], [], [], 1⟩⟩
    ⟨false, emptyDB⟩ emptyDB ⟨[], [(.vstr "u1", uRec)], [], [], [], [], [], [], [], 1⟩
    seedD seedD 7 8 ⟨true, true⟩ ⟨true, true⟩ (DataLayer.seededMarker 5) true
    "users" uRec (.vstr "u1")
    rfl rfl (by decide) rfl (by decide) rfl (by decide) (by decide) (by decide)
    (by decide) (by decide) (by decide) (by decide)

end HtmlBox
